import Mathlib

/-!
# Verification of the AI newsletter content pipeline

A shallow embedding of the content filtering, deduplication and ranking
pipeline (`utils/content_filter.py` and `newsletter.py`), with theorems
checking the stated behavioural properties.

Conventions of the embedding:
* Python strings become `String`; text processing works on `List Char`
  (`String.toList`), so every definition is structurally recursive and
  kernel-reducible.
* Python numbers: engagement values are `Int` after coercion; scores are
  exact rationals `ℚ` (the reference uses machine floats, whose rounding
  is irrelevant at the magnitudes involved).
* Python dicts with known keys become structures; `dict.get(k, default)`
  becomes a field with that default, or an `Option` lookup.
* `datetime` values become integer timestamps in seconds; `datetime.now()`
  is an explicit `now : Int` argument.
-/

/-- Python's `needle in haystack` prefix test on character lists:
`startsWithL n h` is true iff `n` is a prefix of `h`. -/
def startsWithL : List Char → List Char → Bool
  | [], _ => true
  | _ :: _, [] => false
  | a :: as, b :: bs => a == b && startsWithL as bs

/-- Python's substring test `needle in haystack` on character lists. -/
def containsSub (needle : List Char) : List Char → Bool
  | [] => startsWithL needle []
  | c :: rest => startsWithL needle (c :: rest) || containsSub needle rest

/-- Python `str.lower()` (ASCII case folding, which is all the pipeline's
inputs use). -/
def lowerL (l : List Char) : List Char := l.map Char.toLower

/-- Python `str.replace(old, new)` specialised to the single-character
patterns the source uses (`','`, `'k'`, `'K'`): every occurrence of the
character is replaced by `repl`. -/
def replaceChar (c : Char) (repl : List Char) (l : List Char) : List Char :=
  l.flatMap (fun ch => if ch == c then repl else [ch])

/-- Accumulator worker for `splitWS`. -/
def splitWSAux : List Char → List Char → List (List Char)
  | [], acc => if acc.isEmpty then [] else [acc.reverse]
  | c :: rest, acc =>
      if c.isWhitespace then
        if acc.isEmpty then splitWSAux rest [] else acc.reverse :: splitWSAux rest []
      else splitWSAux rest (c :: acc)

/-- Python `str.split()` with no arguments: split on runs of whitespace,
discarding empty tokens. -/
def splitWS (l : List Char) : List (List Char) := splitWSAux l []

/-- Join tokens with single spaces (used to express "strip then collapse
whitespace runs to one space", i.e. `title.strip()` followed by
`re.sub(r"\s+", " ", title)`, as a join of the whitespace-split tokens). -/
def joinSp : List (List Char) → List Char
  | [] => []
  | [w] => w
  | w :: ws => w ++ ' ' :: joinSp ws

/-- An engagement metric value as sources supply it: absent/None, an
integer, or a formatted string such as "1.2k". -/
inductive EngVal where
  | none : EngVal
  | int (n : Int) : EngVal
  | str (s : String) : EngVal
deriving DecidableEq, Repr

/-- Numeric value of a run of decimal digits. -/
def digitsVal (l : List Char) : Nat :=
  l.foldl (fun a c => a * 10 + (c.toNat - 48)) 0

/-- Magnitude part of a Python `float(...)` literal: digits, optionally a
point and more digits (at least one digit overall). -/
def pyFloatMag (l : List Char) : Option ℚ :=
  let intPart := l.takeWhile Char.isDigit
  let rest := l.dropWhile Char.isDigit
  match rest with
  | [] => if intPart.isEmpty then Option.none else Option.some (digitsVal intPart : ℚ)
  | '.' :: frac =>
      if frac.all Char.isDigit && !(intPart.isEmpty && frac.isEmpty) then
        Option.some ((digitsVal intPart : ℚ) + (digitsVal frac : ℚ) / (10 ^ frac.length))
      else Option.none
  | _ => Option.none

/-- Strip leading and trailing whitespace. -/
def trimWS (l : List Char) : List Char :=
  ((l.dropWhile Char.isWhitespace).reverse.dropWhile Char.isWhitespace).reverse

/-- Python's builtin `float(s)` on the plain decimal forms engagement
strings take after the source's textual replacements: optional sign,
digits with an optional fractional part, surrounding whitespace allowed;
anything else fails (modelling the `ValueError` branch). -/
def pyFloat (l : List Char) : Option ℚ :=
  match trimWS l with
  | '+' :: rest => pyFloatMag rest
  | '-' :: rest => (pyFloatMag rest).map (fun q => -q)
  | rest => pyFloatMag rest

/-- Python's builtin `int(x)` on a float: truncation toward zero. -/
def ratTrunc (q : ℚ) : Int := if q < 0 then -(Rat.floor (-q)) else Rat.floor q

/-- The `to_int` helper defined (identically) inside both
`ContentFilter._has_engagement` and `ContentFilter._calculate_score`:
None ↦ 0; a string has `','` removed and every `'k'`/`'K'` replaced by
`"000"`, then `int(float(...))`, with 0 on parse failure; an int is kept. -/
def to_int : EngVal → Int
  | EngVal.none => 0
  | EngVal.int n => n
  | EngVal.str s =>
      let l := replaceChar 'K' "000".toList
        (replaceChar 'k' "000".toList (replaceChar ',' [] s.toList))
      match pyFloat l with
      | Option.some q => ratTrunc q
      | Option.none => 0

/-- A content item (`ContentItem` in the spec, a dict in the source).
Field defaults mirror the `item.get(key, default)` calls in the source. -/
structure Item where
  title : String := ""
  description : String := ""
  url : String := ""
  type : String := ""
  published_date : Option Int := Option.none
  upvotes : EngVal := EngVal.int 0
  score : EngVal := EngVal.int 0
  stars : EngVal := EngVal.int 0
  comments : EngVal := EngVal.int 0
  untrusted_source : Bool := false
  has_code : Bool := false
deriving DecidableEq, Repr

/-- Per-category configuration (`config['categories'][name]`). -/
structure CategoryConfig where
  enabled : Bool := true
  priority : Int := 5
  keywords : List String := []
deriving DecidableEq, Repr

/-- Global filtering configuration (`config['filtering']`). -/
structure FilteringConfig where
  exclude_keywords : List String := []
  require_engagement : Bool := false
  trusted_domains : List String := []
  deduplicate : Bool := true
deriving DecidableEq, Repr

/-- The configuration slice the pipeline reads. Categories are an
association list, preserving the (insertion-ordered) dict iteration
order of the source. -/
structure Config where
  categories : List (String × CategoryConfig) := []
  filtering : FilteringConfig := {}
  max_items_per_category : Nat := 10
deriving DecidableEq, Repr

/-- Association-list lookup (Python `dict[k]` / `dict.get(k)`). -/
def lookupCat : List (String × CategoryConfig) → String → Option CategoryConfig
  | [], _ => Option.none
  | (n, cc) :: rest, k => if n = k then Option.some cc else lookupCat rest k

/-- The combined lower-cased `f"{title} {description}"` text the
categorizer and exclusion check work on. -/
def itemText (item : Item) : List Char :=
  lowerL item.title.toList ++ ' ' :: lowerL item.description.toList

/-- Embeds `ContentFilter.categorize_item`: every enabled category one of whose
lower-cased keywords occurs in the item text, in configuration order;
if none matches, fall back on the item type (`research`/`paper` ↦
`models`, `product` ↦ `product_launches`). -/
def categorize_item (cfg : Config) (item : Item) : List String :=
  let text := itemText item
  let cats := (cfg.categories.filter (fun p =>
    p.2.enabled && p.2.keywords.any (fun kw => containsSub (lowerL kw.toList) text))).map Prod.fst
  if cats.isEmpty then
    if containsSub "research".toList item.type.toList
        || containsSub "paper".toList item.type.toList then ["models"]
    else if containsSub "product".toList item.type.toList then ["product_launches"]
    else []
  else cats

/-- Embeds `ContentFilter._should_exclude`: true iff some exclude keyword occurs
in the item text while neither "ai" nor "machine learning" does. -/
def should_exclude (cfg : Config) (item : Item) : Bool :=
  if cfg.filtering.exclude_keywords.isEmpty then false
  else
    cfg.filtering.exclude_keywords.any (fun kw =>
      containsSub (lowerL kw.toList) (itemText item)
        && !containsSub "ai".toList (itemText item)
        && !containsSub "machine learning".toList (itemText item))

/-- Embeds `ContentFilter._has_engagement`: any of the four coerced metrics
strictly positive. -/
def has_engagement (item : Item) : Bool :=
  decide (to_int item.upvotes > 0) || decide (to_int item.score > 0)
    || decide (to_int item.stars > 0) || decide (to_int item.comments > 0)

/-- Embeds `ContentFilter._is_trusted_domain`: vacuously true when no trusted
domains are configured, else a substring test of each domain against the
item URL. -/
def is_trusted_domain (cfg : Config) (item : Item) : Bool :=
  let td := cfg.filtering.trusted_domains
  if td.isEmpty then true
  else td.any (fun d => containsSub d.toList item.url.toList)

/-- Embeds `ContentFilter.filter_items`: drop excluded items, drop items failing
the (optional) engagement gate, and annotate rather than drop items from
untrusted domains (the annotation step only runs when a trusted-domain
list is configured, mirroring `if self.filtering.get('trusted_domains')`). -/
def filter_items (cfg : Config) (items : List Item) : List Item :=
  items.filterMap (fun item =>
    if should_exclude cfg item then Option.none
    else if cfg.filtering.require_engagement && !has_engagement item then Option.none
    else Option.some
      (if !cfg.filtering.trusted_domains.isEmpty && !is_trusted_domain cfg item then
        { item with untrusted_source := true }
      else item))

/-- The title normalisation in `ContentFilter.deduplicate`:
`title.lower().strip()` then `re.sub(r"\s+", " ", title)`, expressed as
joining the whitespace-split tokens of the lower-cased title with single
spaces (trimming and collapsing runs is exactly that join). -/
def normTitle (s : String) : List Char := joinSp (splitWS (lowerL s.toList))

/-- Embeds `ContentFilter._similarity`: word-set Jaccard similarity of two
(already normalised) titles, 0 when either token set is empty. -/
def similarity (s1 s2 : List Char) : ℚ :=
  let words1 := (splitWS s1).toFinset
  let words2 := (splitWS s2).toFinset
  if words1 = ∅ ∨ words2 = ∅ then 0
  else ((words1 ∩ words2).card : ℚ) / ((words1 ∪ words2).card : ℚ)

/-- Worker for `deduplicate`: `seen` is the set of already accepted
normalised titles (a list here; only membership-style `any` queries are
made, so duplicates in the list are inert, as in the Python `set`). An
item is dropped iff its normalised title has similarity above 0.85 with
some accepted title. -/
def dedupSeen : List (List Char) → List Item → List Item
  | _, [] => []
  | seen, item :: rest =>
      if seen.any (fun s => decide (similarity (normTitle item.title) s > 85 / 100)) then
        dedupSeen seen rest
      else
        item :: dedupSeen (normTitle item.title :: seen) rest

/-- Embeds `ContentFilter.deduplicate`: first-occurrence-wins near-duplicate
removal keyed on normalised titles. -/
def deduplicate (items : List Item) : List Item := dedupSeen [] items

/-- The priority read in `_calculate_score`:
`self.categories.get(category, {}).get('priority', 5)`. -/
def priorityOf (cfg : Config) (category : String) : Int :=
  match lookupCat cfg.categories category with
  | Option.some cc => cc.priority
  | Option.none => 5

/-- Embeds `ContentFilter._calculate_score` at time `now` (seconds): category
priority, recency (age in whole days, `timedelta.days` flooring),
capped engagement contributions, trust bonus, and type bonuses. -/
def calculate_score (now : Int) (cfg : Config) (category : String) (item : Item) : ℚ :=
  let priority := priorityOf cfg category
  let priorityPart : ℚ := (((6 - priority) * 10 : Int) : ℚ)
  let recencyPart : ℚ :=
    match item.published_date with
    | Option.none => 0
    | Option.some pd =>
        let days_old := Int.fdiv (now - pd) 86400
        if days_old = 0 then 20
        else if days_old = 1 then 15
        else if days_old = 2 then 10
        else if days_old = 3 then 5
        else 0
  let upvotes : ℚ := (to_int item.upvotes : ℚ)
  let score_metric : ℚ := (to_int item.score : ℚ)
  let stars : ℚ := (to_int item.stars : ℚ)
  let comments : ℚ := (to_int item.comments : ℚ)
  let engagementPart : ℚ :=
    min (upvotes / 10) 20 + min (score_metric / 10) 20
      + min (stars / 100) 20 + min (comments / 5) 10
  let trustPart : ℚ := if !item.untrusted_source then 10 else 0
  let typePart : ℚ :=
    if containsSub "research".toList item.type.toList
        || containsSub "paper".toList item.type.toList then 5 else 0
  let codePart : ℚ := if item.has_code then 5 else 0
  priorityPart + recencyPart + engagementPart + trustPart + typePart + codePart

/-- Stable descending insertion: place `x` before the first element whose
key is not greater, so earlier-input elements precede later ones on ties. -/
def insertDesc (key : Item → ℚ) (x : Item) : List Item → List Item
  | [] => [x]
  | y :: ys => if key y ≤ key x then x :: y :: ys else y :: insertDesc key x ys

/-- Stable descending sort by key. -/
def sortDesc (key : Item → ℚ) : List Item → List Item
  | [] => []
  | x :: xs => insertDesc key x (sortDesc key xs)

/-- Embeds `ContentFilter.rank_items`: attach `_ranking_score = _calculate_score`
to every item and stably sort descending by it (Python's `sorted` with
`reverse=True` is a stable sort; a stable sort is determined by its key
order, embedded here as stable descending insertion sort). The ephemeral
`_ranking_score` entry is represented by the key function itself. -/
def rank_items (now : Int) (cfg : Config) (category : String) (items : List Item) : List Item :=
  sortDesc (calculate_score now cfg category) items

/-- The four fixed bucket names `collect_content` initialises. -/
def fixedCategoryNames : List String :=
  ["models", "creative_applications", "productivity_tools", "product_launches"]

/-- The initial `all_content` map of `collect_content`. -/
def emptyAllContent : List (String × List Item) :=
  fixedCategoryNames.map (fun n => (n, []))

/-- Embeds `all_content[category].append(item)` guarded by
`if category in all_content`: buckets whose key is absent are untouched. -/
def addToBucket (buckets : List (String × List Item)) (cat : String) (item : Item) :
    List (String × List Item) :=
  buckets.map (fun p => if p.1 = cat then (p.1, p.2 ++ [item]) else p)

/-- Embeds `AINewsletterGenerator._categorize_content` for one item: append it to
the bucket of every category it matched. -/
def categorizeInto (cfg : Config) (buckets : List (String × List Item)) (item : Item) :
    List (String × List Item) :=
  (categorize_item cfg item).foldl (fun acc c => addToBucket acc c item) buckets

/-- Embeds `AINewsletterGenerator.collect_content`, with scraping abstracted to
the flat list of items the enabled sources produced (`_categorize_content`
is applied source list by source list; folding over the concatenation is
the same computation). -/
def collect_content (cfg : Config) (items : List Item) : List (String × List Item) :=
  items.foldl (categorizeInto cfg) emptyAllContent

/-- Embeds `AINewsletterGenerator.filter_and_rank_content`: per category (skipping
disabled ones), filter, optionally deduplicate, rank, and truncate to
`max_items_per_category`. A category name missing from the configuration
is skipped (the source would raise a `KeyError`; no claim depends on it). -/
def filter_and_rank_content (now : Int) (cfg : Config)
    (all_content : List (String × List Item)) : List (String × List Item) :=
  all_content.filterMap (fun p =>
    match lookupCat cfg.categories p.1 with
    | Option.none => Option.none
    | Option.some cc =>
        if cc.enabled then
          let filtered := filter_items cfg p.2
          let deduped := if cfg.filtering.deduplicate then deduplicate filtered else filtered
          let ranked := rank_items now cfg p.1 deduped
          Option.some (p.1, ranked.take cfg.max_items_per_category)
        else Option.none)

/-- Embeds `sum(len(items) for items in filtered_content.values())`. -/
def totalItems (content : List (String × List Item)) : Nat :=
  (content.map (fun p => p.2.length)).sum

/-- Outcome of `AINewsletterGenerator.run`: either the zero-content early
return (nothing rendered, nothing sent) or an email generated from the
filtered content map. -/
inductive RunOutcome where
  | noContent : RunOutcome
  | sent (content : List (String × List Item)) : RunOutcome
deriving DecidableEq, Repr

/-- Embeds `AINewsletterGenerator.run`, from collected content onward: filter and
rank, then return early when the total item count is zero, else hand the
content map to the (external) renderer and mailer. -/
def run (now : Int) (cfg : Config) (all_content : List (String × List Item)) : RunOutcome :=
  let filtered := filter_and_rank_content now cfg all_content
  if totalItems filtered = 0 then RunOutcome.noContent
  else RunOutcome.sent filtered

section Theorems

attribute [local semireducible] Rat.add Rat.mul Rat.inv Rat.sub

/-- C1: the spec's end-to-end scoring example evaluated on the code.
With category priority 1, `published_date` = now, `stars = "1.2k"`,
trusted source, type `research_paper` and `has_code`, the computed score
is 90.01, not the claimed 102: `to_int` rewrites "1.2k" to "1.2000",
which parses to 1.2 and truncates to 1 star, contributing 0.01 instead
of 12. -/
theorem c1_score_example_evaluates_to_90_01 :
    calculate_score 0 { categories := [("models", { priority := 1 })] } "models"
      { published_date := Option.some 0, stars := EngVal.str "1.2k",
        type := "research_paper", has_code := true } = 9001 / 100 ∧
    (9001 / 100 : ℚ) ≠ 102 := by
  exact ⟨by decide, by decide⟩

/-- C2: the lenient numeric parser does not apply a trailing "k"/"K"
suffix as a ×1000 multiplier: it replaces every "k" by "000", so "1.2k"
becomes "1.2000" and coerces to 1, not 1200. Comma stripping,
whole-number "k" values and the unparsable-defaults-to-0 rule do behave
as claimed. -/
theorem c2_to_int_fractional_k_yields_1 :
    to_int (EngVal.str "1.2k") = 1 ∧ (1 : Int) ≠ 1200 ∧
    to_int (EngVal.str "12k") = 12000 ∧
    to_int (EngVal.str "1,234") = 1234 ∧
    to_int (EngVal.str "n/a") = 0 := by
  exact ⟨by decide, by decide, by decide, by decide, by decide⟩

/-- C3 (counterexample): for the two titles of the claim, the similarity
used by dedup is not 1.0 and `deduplicate` keeps both items, because
"released" and "released!!" are distinct whitespace-split tokens. -/
theorem c3_dedup_example_keeps_both :
    similarity (normTitle "New Transformer Model Released")
        (normTitle "new transformer model released!!") ≠ 1 ∧
    (deduplicate [{ title := "New Transformer Model Released" },
        { title := "new transformer model released!!" }]).length ≠ 1 := by
  exact ⟨by decide, by decide⟩

/-- C3 (amended): on those two titles the title-similarity evaluates to
3/5 (tokens "released" and "released!!" differ, so 3 of the 5 distinct
tokens are shared) — below the 0.85 threshold — and `deduplicate`
returns both items unchanged, in input order. -/
theorem c3_dedup_example_similarity_3_5 :
    similarity (normTitle "New Transformer Model Released")
        (normTitle "new transformer model released!!") = 3 / 5 ∧
    deduplicate [{ title := "New Transformer Model Released" },
        { title := "new transformer model released!!" }]
      = [{ title := "New Transformer Model Released" },
        { title := "new transformer model released!!" }] := by
  exact ⟨by decide, by decide⟩

/-- The AI-override of `_should_exclude`: when the item text contains
"ai" or "machine learning", every keyword's conjunct is false, so the
check returns false. -/
theorem should_exclude_false_of_override (cfg : Config) (item : Item)
    (h : containsSub "ai".toList (itemText item) = true ∨
      containsSub "machine learning".toList (itemText item) = true) :
    should_exclude cfg item = false := by
  unfold should_exclude
  split
  · rfl
  · rw [List.any_eq_false]
    intro kw _
    rcases h with h | h <;> (simp only [h]; simp)

/-- C4: with some configured exclude keyword occurring in the item's
combined lower-cased title+description, the exclusion check returns
false when the text also contains "ai" or "machine learning" (so the
exclusion rule never drops the item), and otherwise returns true and
`filter_items` drops the item. -/
theorem c4_exclude_keyword_ai_override (cfg : Config) (item : Item) (kw : String)
    (hkw : kw ∈ cfg.filtering.exclude_keywords)
    (hmatch : containsSub (lowerL kw.toList) (itemText item) = true) :
    ((containsSub "ai".toList (itemText item) = true ∨
        containsSub "machine learning".toList (itemText item) = true) →
      should_exclude cfg item = false) ∧
    (containsSub "ai".toList (itemText item) = false →
      containsSub "machine learning".toList (itemText item) = false →
      should_exclude cfg item = true ∧ filter_items cfg [item] = []) := by
  constructor
  · exact fun h => should_exclude_false_of_override cfg item h
  · intro hai hml
    have hex : should_exclude cfg item = true := by
      unfold should_exclude
      have hne : cfg.filtering.exclude_keywords.isEmpty = false := by
        cases h : cfg.filtering.exclude_keywords with
        | nil => rw [h] at hkw; cases hkw
        | cons a l => simp
      rw [if_neg (by simp [hne])]
      exact List.any_eq_true.mpr ⟨kw, hkw, by simp only [hmatch, hai, hml]; rfl⟩
    refine ⟨hex, ?_⟩
    simp [filter_items, hex]

/-- C4 witness: an item mentioning the excluded keyword "crypto" with no
AI-related text is flagged by the exclusion check and dropped by the
filter. -/
theorem c4_exclude_keyword_ai_override_witness :
    should_exclude { filtering := { exclude_keywords := ["crypto"] } }
        { title := "Crypto pump update" } = true ∧
      filter_items { filtering := { exclude_keywords := ["crypto"] } }
        [{ title := "Crypto pump update" }] = [] :=
  (c4_exclude_keyword_ai_override
    { filtering := { exclude_keywords := ["crypto"] } }
    { title := "Crypto pump update" } "crypto"
    (by decide) (by decide)).2 (by decide) (by decide)

/-- C7: when both token sets are empty, `_similarity` takes its guarded
branch and returns 0, which is below the 0.85 duplicate threshold, so
neither title counts as a duplicate of the other. -/
theorem c7_empty_token_sets_similarity_zero (s1 s2 : List Char)
    (h1 : splitWS s1 = []) (h2 : splitWS s2 = []) :
    similarity s1 s2 = 0 ∧ ¬ similarity s1 s2 > 85 / 100 := by
  have h0 : similarity s1 s2 = 0 := by
    unfold similarity
    rw [h1, h2]
    simp
  refine ⟨h0, ?_⟩
  rw [h0]
  norm_num

/-- C7 witness: two empty titles. -/
theorem c7_empty_token_sets_similarity_zero_witness :
    similarity [] [] = 0 ∧ ¬ similarity [] [] > 85 / 100 :=
  c7_empty_token_sets_similarity_zero [] [] rfl rfl

/-- C8: a zero-item filtered content map makes `run` take the early
return: no email is generated or sent and no error is raised. -/
theorem c8_zero_content_returns_normally (now : Int) (cfg : Config)
    (all_content : List (String × List Item))
    (h : totalItems (filter_and_rank_content now cfg all_content) = 0) :
    run now cfg all_content = RunOutcome.noContent := by
  unfold run
  simp [h]

/-- C8 witness: an empty collection map. -/
theorem c8_zero_content_returns_normally_witness :
    run 0 {} [] = RunOutcome.noContent :=
  c8_zero_content_returns_normally 0 {} [] rfl

/-- C9: any item whose combined lower-cased title+description contains
the letter sequence "ai" anywhere — also inside an unrelated word — is
never flagged by the exclusion check, whatever the exclude keywords. -/
theorem c9_ai_substring_disables_exclusion (cfg : Config) (item : Item)
    (h : containsSub "ai".toList (itemText item) = true) :
    should_exclude cfg item = false :=
  should_exclude_false_of_override cfg item (Or.inl h)

/-- C9 witness: "Email" contains "ai", so an item about an excluded
topic escapes exclusion merely by mentioning email. -/
theorem c9_ai_substring_disables_exclusion_witness :
    should_exclude { filtering := { exclude_keywords := ["crypto"] } }
      { title := "Email crypto scam roundup" } = false :=
  c9_ai_substring_disables_exclusion
    { filtering := { exclude_keywords := ["crypto"] } }
    { title := "Email crypto scam roundup" } (by decide)

/-- Running `dedupSeen` again with the same starting `seen` set leaves
its output unchanged: every kept item was accepted against exactly the
titles accepted before it, and those recur identically on the second
pass. -/
theorem dedupSeen_idem (items : List Item) : ∀ seen : List (List Char),
    dedupSeen seen (dedupSeen seen items) = dedupSeen seen items := by
  induction items with
  | nil => intro seen; rfl
  | cons item rest ih =>
      intro seen
      cases hc : seen.any
          (fun s => decide (similarity (normTitle item.title) s > 85 / 100)) with
      | true =>
          simp only [dedupSeen, hc, if_true]
          exact ih seen
      | false =>
          simp only [dedupSeen, hc, Bool.false_eq_true, if_false]
          rw [ih (normTitle item.title :: seen)]

/-- C5: `deduplicate` is idempotent — applying it to its own output
removes nothing further. -/
theorem c5_deduplicate_idempotent (items : List Item) :
    deduplicate (deduplicate items) = deduplicate items :=
  dedupSeen_idem items []

/-- C5 witness: a concrete two-item list, one a near-duplicate. -/
theorem c5_deduplicate_idempotent_witness :
    deduplicate (deduplicate
        [({ title := "A new model" } : Item), { title := "a  new   model" }])
      = deduplicate [({ title := "A new model" } : Item), { title := "a  new   model" }] :=
  c5_deduplicate_idempotent [{ title := "A new model" }, { title := "a  new   model" }]

/-- Inserting into a list adds one to its length. -/
theorem length_insertDesc (key : Item → ℚ) (x : Item) (l : List Item) :
    (insertDesc key x l).length = l.length + 1 := by
  induction l with
  | nil => rfl
  | cons y ys ih =>
      unfold insertDesc
      split
      · rfl
      · simp only [List.length_cons, ih]

/-- The stable descending sort preserves length. -/
theorem length_sortDesc (key : Item → ℚ) (l : List Item) :
    (sortDesc key l).length = l.length := by
  induction l with
  | nil => rfl
  | cons x xs ih =>
      unfold sortDesc
      rw [length_insertDesc, ih, List.length_cons]

/-- Inserting an element either prepends it to the filtered-by-key-class
list (when it belongs to the class) or leaves that list unchanged. -/
theorem filter_insertDesc (key : Item → ℚ) (x : Item) (l : List Item) (c : ℚ) :
    (insertDesc key x l).filter (fun it => decide (key it = c))
      = if key x = c then x :: l.filter (fun it => decide (key it = c))
        else l.filter (fun it => decide (key it = c)) := by
  induction l with
  | nil =>
      by_cases hxc : key x = c
      · simp [insertDesc, hxc]
      · simp [insertDesc, hxc]
  | cons y ys ih =>
      unfold insertDesc
      by_cases hle : key y ≤ key x
      · rw [if_pos hle]
        by_cases hxc : key x = c
        · simp [List.filter_cons, hxc]
        · simp [List.filter_cons, hxc]
      · rw [if_neg hle]
        by_cases hxc : key x = c
        · have hyc : ¬ key y = c := fun hyc =>
            hle (le_of_eq (hyc.trans hxc.symm))
          rw [if_pos hxc] at ih ⊢
          simp [List.filter_cons, hyc, ih]
        · rw [if_neg hxc] at ih ⊢
          by_cases hyc : key y = c
          · simp [List.filter_cons, hyc, ih]
          · simp [List.filter_cons, hyc, ih]

/-- The stable descending sort keeps each equal-key class in input
order: filtering the output by any key value gives the same list as
filtering the input. -/
theorem filter_sortDesc (key : Item → ℚ) (l : List Item) (c : ℚ) :
    (sortDesc key l).filter (fun it => decide (key it = c))
      = l.filter (fun it => decide (key it = c)) := by
  induction l with
  | nil => rfl
  | cons x xs ih =>
      unfold sortDesc
      rw [filter_insertDesc]
      by_cases hxc : key x = c
      · rw [if_pos hxc, ih]
        simp [List.filter_cons, hxc]
      · rw [if_neg hxc, ih]
        simp [List.filter_cons, hxc]

/-- C6: ranking returns exactly as many items as it was given, and items
with equal scores keep their input-relative order (stability): filtering
the ranked output by any score value yields the same list as filtering
the input. -/
theorem c6_rank_items_length_and_stability (now : Int) (cfg : Config)
    (category : String) (items : List Item) :
    (rank_items now cfg category items).length = items.length ∧
    ∀ c : ℚ,
      (rank_items now cfg category items).filter
          (fun it => decide (calculate_score now cfg category it = c))
        = items.filter (fun it => decide (calculate_score now cfg category it = c)) :=
  ⟨length_sortDesc _ _, fun c => filter_sortDesc _ _ c⟩

/-- C6 witness: ranking a concrete two-item list keeps both items. -/
theorem c6_rank_items_length_and_stability_witness :
    (rank_items 0 {} "models" [({} : Item), { has_code := true }]).length = 2 :=
  (c6_rank_items_length_and_stability 0 {} "models" [{}, { has_code := true }]).1

/-- Lemma: `addToBucket` keeps the invariant "every bucket key is one of the
four fixed names and `item` is in no bucket", provided the appended
category is not a fixed name or the appended item is not `item`. -/
theorem bucketsInv_addToBucket (item it2 : Item) (c : String)
    (b : List (String × List Item))
    (hinv : ∀ p ∈ b, p.1 ∈ fixedCategoryNames ∧ item ∉ p.2)
    (hc : c ∉ fixedCategoryNames ∨ it2 ≠ item) :
    ∀ p ∈ addToBucket b c it2, p.1 ∈ fixedCategoryNames ∧ item ∉ p.2 := by
  intro q hq
  simp only [addToBucket, List.mem_map] at hq
  obtain ⟨p, hp, rfl⟩ := hq
  by_cases he : p.1 = c
  · rw [if_pos he]
    refine ⟨(hinv p hp).1, ?_⟩
    intro hmem
    rcases List.mem_append.mp hmem with hmem | hmem
    · exact (hinv p hp).2 hmem
    · have : item = it2 := List.mem_singleton.mp hmem
      rcases hc with hc | hc
      · exact hc (he ▸ (hinv p hp).1)
      · exact hc this.symm
  · rw [if_neg he]
    exact hinv p hp

/-- Folding a list of categories through `addToBucket` keeps the same
invariant when every category satisfies the side condition. -/
theorem bucketsInv_foldl (item it2 : Item) (cats : List String) :
    ∀ b : List (String × List Item),
      (∀ p ∈ b, p.1 ∈ fixedCategoryNames ∧ item ∉ p.2) →
      (∀ c ∈ cats, c ∉ fixedCategoryNames ∨ it2 ≠ item) →
      ∀ p ∈ cats.foldl (fun acc c => addToBucket acc c it2) b,
        p.1 ∈ fixedCategoryNames ∧ item ∉ p.2 := by
  induction cats with
  | nil => intro b hinv _ p hp; exact hinv p hp
  | cons c cs ih =>
      intro b hinv hcats p hp
      refine ih (addToBucket b c it2)
        (bucketsInv_addToBucket item it2 c b hinv (hcats c (List.mem_cons_self c cs)))
        (fun c2 hc2 => hcats c2 (List.mem_cons_of_mem c hc2)) p hp

/-- Lemma: `categorizeInto` keeps the invariant: an item equal to `item` only
carries categories outside the four fixed names (by hypothesis), and any
other item leaves `item`'s absence intact. -/
theorem bucketsInv_categorizeInto (cfg : Config) (item it2 : Item)
    (b : List (String × List Item))
    (hinv : ∀ p ∈ b, p.1 ∈ fixedCategoryNames ∧ item ∉ p.2)
    (hitem : ∀ c ∈ categorize_item cfg item, c ∉ fixedCategoryNames) :
    ∀ p ∈ categorizeInto cfg b it2, p.1 ∈ fixedCategoryNames ∧ item ∉ p.2 := by
  refine bucketsInv_foldl item it2 (categorize_item cfg it2) b hinv ?_
  intro c hc
  by_cases he : it2 = item
  · exact Or.inl (hitem c (he ▸ hc))
  · exact Or.inr he

/-- C10: an item all of whose computed categories lie outside the four
fixed bucket names appears in no bucket of the collected content map,
whatever else was collected. -/
theorem c10_offmap_categories_never_bucketed (cfg : Config) (item : Item)
    (items : List Item) (p : String × List Item)
    (hitem : ∀ c ∈ categorize_item cfg item, c ∉ fixedCategoryNames)
    (hp : p ∈ collect_content cfg items) : item ∉ p.2 := by
  have hstart : ∀ q ∈ emptyAllContent, q.1 ∈ fixedCategoryNames ∧ item ∉ q.2 := by
    intro q hq
    simp only [emptyAllContent, List.mem_map] at hq
    obtain ⟨n, hn, rfl⟩ := hq
    exact ⟨hn, List.not_mem_nil item⟩
  have hmain : ∀ (l : List Item) (b : List (String × List Item)),
      (∀ q ∈ b, q.1 ∈ fixedCategoryNames ∧ item ∉ q.2) →
      ∀ q ∈ l.foldl (categorizeInto cfg) b,
        q.1 ∈ fixedCategoryNames ∧ item ∉ q.2 := by
    intro l
    induction l with
    | nil => intro b hinv q hq; exact hinv q hq
    | cons it rest ih =>
        intro b hinv q hq
        exact ih (categorizeInto cfg b it)
          (bucketsInv_categorizeInto cfg item it b hinv hitem) q hq
  exact (hmain items emptyAllContent hstart p hp).2

/-- C10 witness: an item matching only a non-fixed category ("agents")
is absent from the "models" bucket even though another item (a research
paper routed there by the type fallback) fills it. -/
theorem c10_offmap_categories_never_bucketed_witness :
    ({ title := "Coding agent toolkit" } : Item)
      ∉ [({ type := "research_paper" } : Item)] :=
  c10_offmap_categories_never_bucketed
    { categories := [("agents", { keywords := ["agent"] })] }
    { title := "Coding agent toolkit" }
    [{ title := "Coding agent toolkit" }, { type := "research_paper" }]
    ("models", [{ type := "research_paper" }])
    (by decide) (by decide)

end Theorems
